import Mathlib

/-!
Verification of the Snake repository's core game logic.

The repository ships two editions of the game:
  * a terminal edition (snake.py, curses based), and
  * a GUI edition (game.py, pygame based).

Both are shallowly embedded below: pure Lean functions mirror the Python
methods, integer grid coordinates become `Int × Int`, the `random.choice`
calls are modelled by an injected index choosing an element of the candidate
list, and the high-score file becomes an explicit file-content value.

The GUI edition's `Snake` class lives in a module that is not part of the
sources here (game.py imports `Snake`, `GridPosition` and `DIRECTION_VECTORS`
from a sibling `snake` module distinct from the terminal edition's); that
class is modelled from the spec, as marked on each such definition.
-/

set_option maxRecDepth 8000

/-- Integer grid coordinate, as used by both editions (Python int pairs). -/
abbrev Pos := Int × Int

namespace Term

/-- Movement direction of the terminal edition (snake.py, class Direction). -/
structure Direction where
  dx : Int
  dy : Int
deriving DecidableEq, Repr

/-- Direction.is_opposite (snake.py 41-44): exact componentwise negation. -/
def Direction.isOpposite (self other : Direction) : Bool :=
  decide (self.dx = -other.dx ∧ self.dy = -other.dy)

/-- Terminal-edition snake (snake.py, class Snake). -/
structure Snake where
  body : List Pos
  direction : Direction
deriving DecidableEq, Repr

/-- Snake.head (snake.py 74-78); Python indexes body[0], which presupposes a
nonempty body, so theorems about it carry that hypothesis. -/
def Snake.head (s : Snake) : Pos := s.body.headD (0, 0)

/-- Snake.move (snake.py 80-90): prepend the new head, and pop the last
element of the new list when not growing. -/
def Snake.move (s : Snake) (grow : Bool) : Snake :=
  let newHead : Pos := (s.head.1 + s.direction.dx, s.head.2 + s.direction.dy)
  let inserted := newHead :: s.body
  { s with body := if grow then inserted else inserted.dropLast }

/-- Snake.set_direction (snake.py 92-96). -/
def Snake.setDirection (s : Snake) (nd : Direction) : Snake :=
  if s.direction.isOpposite nd then s else { s with direction := nd }

/-- Snake.occupies (snake.py 98-101). -/
def Snake.occupies (s : Snake) (p : Pos) : Bool := s.body.contains p

/-- BOARD_WIDTH constant (snake.py 12). -/
def BOARD_WIDTH : Nat := 40

/-- BOARD_HEIGHT constant (snake.py 13). -/
def BOARD_HEIGHT : Nat := 20

/-- INITIAL_SNAKE_LENGTH constant (snake.py 15). -/
def INITIAL_SNAKE_LENGTH : Nat := 5

/-- SnakeGame._create_initial_snake (snake.py 125-135), parameterized by the
board size and initial length that the source reads from self.board_width,
self.board_height and INITIAL_SNAKE_LENGTH. -/
def createInitialSnake (w h len : Nat) : Snake :=
  let cx : Int := (w / 2 : Nat)
  let cy : Int := (h / 2 : Nat)
  { body := (List.range len).map (fun (i : Nat) => (cx - (i : Int), cy))
    direction := { dx := 1, dy := 0 } }

/-- SnakeGame._hit_wall (snake.py 248-256). -/
def hitWall (w h : Nat) (p : Pos) : Bool :=
  decide (p.1 ≤ 0 ∨ p.1 ≥ (w : Int) + 1 ∨ p.2 ≤ 0 ∨ p.2 ≥ (h : Int) + 1)

/-- All board cells enumerated by SnakeGame._available_cells (snake.py
261-265): x in range(1, w+1), y in range(1, h+1). -/
def allCells (w h : Nat) : List Pos :=
  (List.range w).flatMap (fun (i : Nat) => (List.range h).map
    (fun (j : Nat) => (((i : Int) + 1), ((j : Int) + 1))))

/-- SnakeGame._available_cells (snake.py 258-266). -/
def availableCells (w h : Nat) (s : Snake) : List Pos :=
  (allCells w h).filter (fun c => ! s.occupies c)

/-- SnakeGame._place_food (snake.py 268-275); random.choice is modelled by an
injected index k picking element (k mod length) of the nonempty list. -/
def placeFood (w h k : Nat) (s : Snake) : Option Pos :=
  let cells := availableCells w h s
  if hne : cells = [] then none
  else some (cells.get ⟨k % cells.length, Nat.mod_lt _ (List.length_pos.mpr hne)⟩)

/-- Mutable state of the terminal SnakeGame relevant to the game logic
(snake.py 107-123); rendering handles are omitted. -/
structure GameState where
  snake : Snake
  food : Option Pos
  score : Nat
  highScore : Nat
  paused : Bool
  gameOver : Bool
deriving DecidableEq, Repr

/-- The candidate next head computed at the top of SnakeGame._update
(snake.py 223-226). -/
def nextHead (g : GameState) : Pos :=
  (g.snake.head.1 + g.snake.direction.dx, g.snake.head.2 + g.snake.direction.dy)

/-- The list inspected by the self-collision test of SnakeGame._update
(snake.py 233): the whole body when the move grows, else the body without
its last element. -/
def bodyToCheck (body : List Pos) (willGrow : Bool) : List Pos :=
  if willGrow then body else body.dropLast

/-- The self-collision test of SnakeGame._update (snake.py 232-234). -/
def selfCollision (body : List Pos) (nh : Pos) (willGrow : Bool) : Bool :=
  (bodyToCheck body willGrow).contains nh

/-- SnakeGame._update (snake.py 220-246), parameterized by board size; k is
the injected food-choice index used if food is placed this tick. -/
def update (w h k : Nat) (g : GameState) : GameState :=
  let nh := nextHead g
  if hitWall w h nh then { g with gameOver := true }
  else
    let willGrow := decide (g.food = some nh)
    if selfCollision g.snake.body nh willGrow then { g with gameOver := true }
    else
      let s1 := g.snake.move willGrow
      let g1 := { g with snake := s1 }
      let g2 :=
        if willGrow then
          { g1 with score := g1.score + 1, food := placeFood w h k s1 }
        else g1
      if g2.food = none ∧ s1.body.length = w * h then { g2 with gameOver := true }
      else g2

/-- The high-score update performed by SnakeGame._display_game_over
(snake.py 327-329); the accompanying save_high_score write is the external
persistence side effect. -/
def displayGameOver (g : GameState) : GameState :=
  if g.highScore < g.score then { g with highScore := g.score } else g

/-- SnakeGame._reset (snake.py 169-177); k is the food-choice index of the
_place_food call. -/
def resetState (w h k : Nat) (g : GameState) : GameState :=
  let s := createInitialSnake w h INITIAL_SNAKE_LENGTH
  { g with snake := s, score := 0, paused := false, gameOver := false,
           food := placeFood w h k s }

/-- Round-start state built by SnakeGame.__init__ (snake.py 107-123): centered
snake, score 0, food freshly placed, not paused, not over; hs is whatever
high score was loaded from disk. -/
def initState (w h k hs : Nat) : GameState :=
  let s := createInitialSnake w h INITIAL_SNAKE_LENGTH
  { snake := s, food := placeFood w h k s, score := 0, highScore := hs,
    paused := false, gameOver := false }

/-- Keys consumed by SnakeGame._handle_input: quit (q/Q), pause (p/P), a key
bound in KEY_BINDINGS to a direction, or any other ignored key. -/
inductive Key where
  | quit
  | pause
  | dir (d : Direction)
  | other
deriving DecidableEq, Repr

/-- SnakeGame._handle_input (snake.py 179-200): the queued keys are processed
in order; a quit key raises SystemExit, modelled as none. -/
def handleInput (g : GameState) : List Key → Option GameState
  | [] => some g
  | k :: rest =>
    match k with
    | .quit => none
    | .pause => handleInput { g with paused := !g.paused } rest
    | .dir d => handleInput { g with snake := g.snake.setDirection d } rest
    | .other => handleInput g rest

/-- One pass of SnakeGame.run (snake.py 150-167): input handling (skipped when
the game is over), the pause gate, the tick update, and the game-over phase
(high-score update by _display_game_over plus the blocking restart/quit
choice). none models leaving the loop or SystemExit; k and k2 are the food
indices for the tick and for a restart's reset. -/
def passStep (w h : Nat) (keys : List Key) (k k2 : Nat) (goRestart : Bool)
    (g : GameState) : Option GameState :=
  let g1? := if g.gameOver then some g else handleInput g keys
  match g1? with
  | none => none
  | some g1 =>
    if g1.paused then some g1
    else
      let g2 := if g1.gameOver then g1 else update w h k g1
      if g2.gameOver then
        let g3 := displayGameOver g2
        if goRestart then some (resetState w h k2 g3) else none
      else some g2

/-- States reachable from a round start by tick updates performed while the
game is not over, with direction keys allowed in between (they only steer the
snake); w and h are the board dimensions fixed at startup. -/
inductive Reachable (w h : Nat) : GameState → Prop where
  | init (k hs : Nat) : Reachable w h (initState w h k hs)
  | tick {g : GameState} (k : Nat) : Reachable w h g → g.gameOver = false →
      Reachable w h (update w h k g)
  | steer {g : GameState} (d : Direction) : Reachable w h g →
      Reachable w h { g with snake := g.snake.setDirection d }

end Term

namespace Gui

/-- GRID_WIDTH constant (game.py 18). -/
def GRID_WIDTH : Nat := 28

/-- GRID_HEIGHT constant (game.py 19). -/
def GRID_HEIGHT : Nat := 20

/-- INITIAL_SNAKE_LENGTH constant (game.py 22). -/
def INITIAL_LENGTH : Nat := 5

/-- Number of themes returned by theme.get_themes (theme.py 30-81). -/
def NUM_THEMES : Nat := 3

/-- Modelled from the spec: the GUI edition's Snake class, whose module is not
among the sources (game.py imports Snake from a sibling snake module distinct
from the terminal edition's). Fields follow spec section 4.1: the body list,
the committed direction, and the queued pending direction. -/
structure Snake where
  body : List Pos
  direction : Pos
  pending : Pos
deriving DecidableEq, Repr

/-- Modelled from the spec: queueDirection (spec 4.1) — sets pendingDirection
to the requested vector unless it is the exact opposite of the current
direction, in which case the call is a silent no-op. Callers invoke it as
snake.set_direction(vector) (game.py 216, 221). -/
def Snake.setDirection (s : Snake) (v : Pos) : Snake :=
  if v.1 = -s.direction.1 ∧ v.2 = -s.direction.2 then s
  else { s with pending := v }

/-- Modelled from the spec: commitDirection (spec 4.1) — promotes the queued
direction; called once per tick at the top of _advance_snake (game.py 280). -/
def Snake.commitDirection (s : Snake) : Snake := { s with direction := s.pending }

/-- Head of the GUI snake: body index 0 (game.py 281 reads self.snake.head). -/
def Snake.head (s : Snake) : Pos := s.body.headD (0, 0)

/-- Modelled from the spec: advance (spec 4.1) — prepend head + direction and
drop the last element when not growing; called as snake.move(grow=...)
(game.py 296). -/
def Snake.move (s : Snake) (grow : Bool) : Snake :=
  let nh : Pos := (s.head.1 + s.direction.1, s.head.2 + s.direction.2)
  let inserted := nh :: s.body
  { s with body := if grow then inserted else inserted.dropLast }

/-- Modelled from the spec: reset / create_centered (spec 4.1) — head at
(w/2, h/2) by integer division, extending len-1 cells in the negative-x
direction, direction (1,0), pending equal to direction; called from
_reset_game_state (game.py 561) and the constructor (game.py 98). -/
def Snake.reset (w h len : Nat) : Snake :=
  let cx : Int := (w / 2 : Nat)
  let cy : Int := (h / 2 : Nat)
  { body := (List.range len).map (fun (i : Nat) => (cx - (i : Int), cy))
    direction := (1, 0), pending := (1, 0) }

/-- GameState enumeration (game.py 28-34). -/
inductive GState where
  | menu
  | playing
  | paused
  | gameOver
deriving DecidableEq, Repr

/-- Mutable fields of the GUI SnakeGame relevant to the game logic (game.py
71-113); fonts, surfaces, animation clocks and button widgets are rendering
state and are omitted. -/
structure State where
  gstate : GState
  score : Nat
  highScore : Nat
  victory : Bool
  snake : Snake
  food : Option Pos
  themeIdx : Nat
  running : Bool
deriving DecidableEq, Repr

/-- SnakeGame._within_bounds (game.py 311-313), parameterized by the grid
size the source reads from GRID_WIDTH and GRID_HEIGHT. -/
def withinBounds (w h : Nat) (p : Pos) : Bool :=
  decide (0 ≤ p.1 ∧ p.1 < (w : Int) ∧ 0 ≤ p.2 ∧ p.2 < (h : Int))

/-- All cells enumerated by SnakeGame._spawn_food (game.py 316-320): x in
range(GRID_WIDTH), y in range(GRID_HEIGHT). -/
def allCells (w h : Nat) : List Pos :=
  (List.range w).flatMap (fun i => (List.range h).map
    (fun (j : Nat) => ((i : Int), (j : Int))))

/-- The available-cell list of SnakeGame._spawn_food (game.py 316-321). -/
def availableCells (w h : Nat) (body : List Pos) : List Pos :=
  (allCells w h).filter (fun c => !body.contains c)

/-- SnakeGame._spawn_food (game.py 315-323); random.choice is modelled by the
injected index k picking element (k mod length) of the nonempty list. -/
def spawnFood (w h k : Nat) (body : List Pos) : Option Pos :=
  let cells := availableCells w h body
  if hne : cells = [] then none
  else some (cells.get ⟨k % cells.length, Nat.mod_lt _ (List.length_pos.mpr hne)⟩)

/-- SnakeGame._enter_game_over (game.py 325-331); the _save_high_score call is
the external persistence side effect of the high-score update. -/
def enterGameOver (victory : Bool) (g : State) : State :=
  let g1 := { g with victory := victory, gstate := GState.gameOver }
  if g1.highScore < g1.score then { g1 with highScore := g1.score } else g1

/-- The self-collision test of SnakeGame._advance_snake (game.py 289-290):
membership in the body without its last element, never in the full body. -/
def selfCollisionCheck (body : List Pos) (nh : Pos) : Bool :=
  (body.dropLast).contains nh

/-- Events recording the order of operations inside the growth branch of
_advance_snake (game.py 298-304): score increment, food spawn, high-score
update, high-score persistence. -/
inductive Event where
  | incScore
  | spawnFoodEv
  | setHighScore
  | persistHigh
deriving DecidableEq, Repr

/-- The candidate next head of a GUI tick, as computed by _advance_snake
(game.py 280-283) right after the direction commit: the committed snake's
head plus its committed direction. -/
def nextHeadG (g : State) : Pos :=
  ((g.snake.commitDirection).head.1 + (g.snake.commitDirection).direction.1,
   (g.snake.commitDirection).head.2 + (g.snake.commitDirection).direction.2)

/-- SnakeGame._advance_snake (game.py 279-309) together with the event trace
of its growth branch, in source order: score += 1 (line 300), _spawn_food
(line 301), then, if score > high_score, the high-score update and save
(lines 302-304). k is the injected food index. -/
def advanceSnakeT (w h k : Nat) (g : State) : State × List Event :=
  let s0 := g.snake.commitDirection
  let nh : Pos := nextHeadG g
  if !withinBounds w h nh then (enterGameOver false { g with snake := s0 }, [])
  else if selfCollisionCheck s0.body nh then
    (enterGameOver false { g with snake := s0 }, [])
  else
    let willGrow := decide (g.food = some nh)
    let s1 := s0.move willGrow
    let g1 := { g with snake := s1 }
    let step2 : State × List Event :=
      if willGrow then
        let ga := { g1 with score := g1.score + 1, food := spawnFood w h k s1.body }
        if ga.highScore < ga.score then
          ({ ga with highScore := ga.score },
            [Event.incScore, Event.spawnFoodEv, Event.setHighScore, Event.persistHigh])
        else (ga, [Event.incScore, Event.spawnFoodEv])
      else (g1, [])
    let g2 := step2.1
    if g2.food = none ∧ w * h ≤ s1.body.length then (enterGameOver true g2, step2.2)
    else (g2, step2.2)

/-- SnakeGame._advance_snake (game.py 279-309), state part. -/
def advanceSnake (w h k : Nat) (g : State) : State := (advanceSnakeT w h k g).1

/-- SnakeGame.change_theme (game.py 530-531). -/
def changeTheme (off : Int) (g : State) : State :=
  { g with themeIdx := (((g.themeIdx : Int) + off) % (NUM_THEMES : Int)).toNat }

/-- SnakeGame._reset_game_state (game.py 560-568); k is the food index of the
closing _spawn_food call. -/
def resetGameState (w h len k : Nat) (g : State) : State :=
  let s := Snake.reset w h len
  { g with snake := s, score := 0, victory := false,
           food := spawnFood w h k s.body }

/-- SnakeGame.start_game (game.py 521-524); the active-theme copy is
presentation state and is omitted. -/
def startGame (w h len k : Nat) (g : State) : State :=
  { resetGameState w h len k g with gstate := GState.playing }

/-- SnakeGame.return_to_menu (game.py 526-528). -/
def returnToMenu (w h len k : Nat) (g : State) : State :=
  { resetGameState w h len k g with gstate := GState.menu }

/-- Keys consumed by SnakeGame._handle_key (game.py 180-222): Escape,
Return/Space, P/Pause, the arrow keys, a key bound in DIRECTION_VECTORS (in
the module not under the sources, modelled from the spec as further bindings
to cardinal vectors), or any other key. -/
inductive GKey where
  | escape
  | enter
  | space
  | pkey
  | up
  | down
  | left
  | right
  | extra (v : Pos)
  | other
deriving DecidableEq, Repr

/-- SnakeGame._handle_key (game.py 180-222); k is the food index for any
round reset the key triggers. -/
def handleKey (w h len k : Nat) (g : State) (key : GKey) : State :=
  if key = GKey.escape then returnToMenu w h len k g
  else if g.gstate = GState.menu then
    if key = GKey.enter ∨ key = GKey.space then startGame w h len k g
    else if key = GKey.left then changeTheme (-1) g
    else if key = GKey.right then changeTheme 1 g
    else g
  else if g.gstate = GState.gameOver then
    if key = GKey.enter ∨ key = GKey.space then startGame w h len k g else g
  else if key = GKey.pkey then
    if g.gstate = GState.playing then { g with gstate := GState.paused }
    else if g.gstate = GState.paused then { g with gstate := GState.playing }
    else g
  else if g.gstate ≠ GState.playing ∧ g.gstate ≠ GState.paused then g
  else
    match key with
    | GKey.up => { g with snake := g.snake.setDirection (0, -1) }
    | GKey.down => { g with snake := g.snake.setDirection (0, 1) }
    | GKey.left => { g with snake := g.snake.setDirection (-1, 0) }
    | GKey.right => { g with snake := g.snake.setDirection (1, 0) }
    | GKey.extra v => { g with snake := g.snake.setDirection v }
    | _ => g

/-- Which interactive region, if any, a mouse click lands on; the pixel
hit-testing of SnakeGame._handle_click is abstracted into this outcome. -/
inductive ClickTarget where
  | startBtn
  | quitBtn
  | themePrev
  | themeNext
  | restartBtn
  | menuBtn
  | elsewhere
deriving DecidableEq, Repr

/-- SnakeGame._handle_click (game.py 224-234) with the button callbacks from
game.py 130-153: clicks dispatch only in the MENU and GAME_OVER states. -/
def handleClick (w h len k : Nat) (g : State) (t : ClickTarget) : State :=
  if g.gstate = GState.menu then
    match t with
    | ClickTarget.startBtn => startGame w h len k g
    | ClickTarget.quitBtn => { g with running := false }
    | ClickTarget.themePrev => changeTheme (-1) g
    | ClickTarget.themeNext => changeTheme 1 g
    | _ => g
  else if g.gstate = GState.gameOver then
    match t with
    | ClickTarget.restartBtn => startGame w h len k g
    | ClickTarget.menuBtn => returnToMenu w h len k g
    | _ => g
  else g

/-- Events of one frame of SnakeGame._handle_events (game.py 171-178). -/
inductive GEvent where
  | quitEv
  | keyDown (k : GKey)
  | click (t : ClickTarget)
deriving DecidableEq, Repr

/-- SnakeGame._handle_events (game.py 171-178): fold over the frame's event
queue; each event carries the food index used if it triggers a reset. -/
def handleEvents (w h len : Nat) (g : State) : List (GEvent × Nat) → State
  | [] => g
  | (e, k) :: rest =>
    let g1 :=
      match e with
      | GEvent.quitEv => { g with running := false }
      | GEvent.keyDown key => handleKey w h len k g key
      | GEvent.click t => handleClick w h len k g t
    handleEvents w h len g1 rest

/-- The catch-up tick loop of SnakeGame._update (game.py 254-258): one
_advance_snake per whole MOVE_INTERVAL elapsed, stopping as soon as a tick
ends in GAME_OVER; the list supplies a food index per pending tick. -/
def updateTicks (w h : Nat) (g : State) : List Nat → State
  | [] => g
  | k :: rest =>
    let g1 := advanceSnake w h k g
    if g1.gstate = GState.gameOver then g1 else updateTicks w h g1 rest

/-- SnakeGame._update (game.py 239-258): in MENU, PAUSED and GAME_OVER states
it returns before reaching the tick loop (the gradient phase and pulse clocks
it still advances are pure rendering state, omitted here); otherwise it runs
the catch-up tick loop. The float time accumulator is abstracted into the
list of pending whole ticks. -/
def updateFrame (w h : Nat) (g : State) (ticks : List Nat) : State :=
  if g.gstate = GState.menu ∨ g.gstate = GState.paused ∨ g.gstate = GState.gameOver
  then g
  else updateTicks w h g ticks

/-- One pass of SnakeGame.run (game.py 158-166): event handling followed by
the frame update; drawing is omitted. -/
def passFrame (w h len : Nat) (evs : List (GEvent × Nat)) (ticks : List Nat)
    (g : State) : State :=
  updateFrame w h (handleEvents w h len g evs) ticks

/-- Round-start state produced by start_game on the freshly constructed game
(game.py 71-113 then 521-524): the constructor builds the centered snake,
score 0, state MENU, food spawned by _reset_game_state, and start_game resets
again and enters PLAYING. k is the food index, hs the loaded high score. -/
def initRound (k hs : Nat) : State :=
  startGame GRID_WIDTH GRID_HEIGHT INITIAL_LENGTH k
    { gstate := GState.menu, score := 0, highScore := hs, victory := false,
      snake := Snake.reset GRID_WIDTH GRID_HEIGHT INITIAL_LENGTH,
      food := none, themeIdx := 0, running := true }

/-- States reachable from a round start by ticks performed while in the
PLAYING state, with direction changes allowed in between. -/
inductive ReachableG : State → Prop where
  | start (k hs : Nat) : ReachableG (initRound k hs)
  | tick {g : State} (k : Nat) : ReachableG g → g.gstate = GState.playing →
      ReachableG (advanceSnake GRID_WIDTH GRID_HEIGHT k g)
  | steer {g : State} (v : Pos) : ReachableG g →
      ReachableG { g with snake := g.snake.setDirection v }

end Gui

/-- Terminal snake with the given body steered so that its computed next head
is exactly the candidate position nh (direction = nh - head); used to phrase
the self-collision contract about an arbitrary candidate head. -/
def Term.candidateSnake (body : List Pos) (nh : Pos) : Term.Snake :=
  { body := body
    direction := ⟨nh.1 - (body.headD (0, 0)).1, nh.2 - (body.headD (0, 0)).2⟩ }

/-- GUI snake with the given body steered so that its computed next head is
exactly the candidate position nh. -/
def Gui.candidateSnakeG (body : List Pos) (nh : Pos) : Gui.Snake :=
  { body := body
    direction := (nh.1 - (body.headD (0, 0)).1, nh.2 - (body.headD (0, 0)).2)
    pending := (nh.1 - (body.headD (0, 0)).1, nh.2 - (body.headD (0, 0)).2) }

/-- The body/food invariant maintained by the GUI round: nonempty duplicate
free body, and the food (when present) never on the body. -/
def Gui.InvG (g : Gui.State) : Prop :=
  g.snake.body ≠ [] ∧ g.snake.body.Nodup ∧
    ∀ c : Pos, g.food = some c → c ∉ g.snake.body

/-- Event a occurs strictly before event b somewhere in the trace t. -/
@[reducible]
def Gui.eventPrecedes (t : List Gui.Event) (a b : Gui.Event) : Prop :=
  ∃ i j : Fin t.length, i < j ∧ t.get i = a ∧ t.get j = b

/-- Keys that only steer or pause: P, the four arrows, an extra direction
binding, or an ignored key; excludes Escape and Return/Space. -/
def Gui.isSteerKey (k : Gui.GKey) : Prop :=
  k = GKey.pkey ∨ k = GKey.up ∨ k = GKey.down ∨ k = GKey.left ∨
    k = GKey.right ∨ (∃ v, k = GKey.extra v) ∨ k = GKey.other

/-- A concrete GUI playing state about to eat the food at (2,1): used to
exhibit the order of the growth-branch events. -/
def Gui.exampleGrowState : Gui.State :=
  { gstate := Gui.GState.playing, score := 0, highScore := 0, victory := false,
    snake := ⟨[(1, 1), (0, 1)], (1, 0), (1, 0)⟩, food := some (2, 1),
    themeIdx := 0, running := true }

/-- A concrete terminal state about to eat the food at (6,5) while its score 5
already exceeds the stored high score 3. -/
def Term.exampleGrowState : Term.GameState :=
  { snake := ⟨[(5, 5), (4, 5)], ⟨1, 0⟩⟩, food := some (6, 5), score := 5,
    highScore := 3, paused := false, gameOver := false }

/-- A concrete paused terminal state used for the control-loop pass claims. -/
def Term.examplePausedState : Term.GameState :=
  { snake := ⟨[(5, 5), (4, 5)], ⟨1, 0⟩⟩, food := some (1, 1), score := 0,
    highScore := 0, paused := true, gameOver := false }

/-- A concrete paused GUI state used for the control-loop pass claims. -/
def Gui.examplePausedState : Gui.State :=
  { gstate := Gui.GState.paused, score := 2, highScore := 7, victory := false,
    snake := ⟨[(5, 5), (4, 5)], (1, 0), (1, 0)⟩, food := some (1, 1),
    themeIdx := 0, running := true }

namespace Persist

/-- Content of the high-score file as observed by a read: the file may be
absent, the read may fail with an I/O error, or it yields its characters. -/
inductive FileContent where
  | missing
  | ioErr
  | content (text : List Char)
deriving DecidableEq, Repr

/-- Whitespace stripped by Python str.strip (the characters that matter for
this file format). -/
def pySpace (c : Char) : Bool :=
  decide (c = ' ' ∨ c = '\n' ∨ c = '\t' ∨ c = '\r')

/-- Python text.strip(): drop leading and trailing whitespace. -/
def pyStrip (l : List Char) : List Char :=
  ((l.dropWhile pySpace).reverse.dropWhile pySpace).reverse

/-- Decimal digit test, as in int() parsing. -/
def isDigitCh (c : Char) : Bool :=
  decide (48 ≤ c.toNat ∧ c.toNat ≤ 57)

/-- Numeric value of a decimal digit character. -/
def digitVal (c : Char) : Nat := c.toNat - 48

/-- Value of a digit run read left to right. -/
def digitsVal (l : List Char) : Nat :=
  l.foldl (fun acc c => acc * 10 + digitVal c) 0

/-- Python int(text) for a stripped string, in the shapes this file can hold:
an optional sign followed by a nonempty run of decimal digits parses to the
signed value; anything else raises ValueError, modelled as none. -/
def pyInt (l : List Char) : Option Int :=
  match l with
  | '-' :: rest =>
    if rest ≠ [] ∧ rest.all isDigitCh then some (-(digitsVal rest : Int)) else none
  | '+' :: rest =>
    if rest ≠ [] ∧ rest.all isDigitCh then some ((digitsVal rest : Int)) else none
  | _ => if l ≠ [] ∧ l.all isDigitCh then some ((digitsVal l : Int)) else none

/-- SnakeGame.load_high_score (snake.py 353-361) and _load_high_score
(game.py 545-549): read the file, strip, parse as int; a missing file,
failed read or unparsable content yields 0. -/
def loadHighScore (f : FileContent) : Int :=
  match f with
  | FileContent.missing => 0
  | FileContent.ioErr => 0
  | FileContent.content text =>
    match pyInt (pyStrip text) with
    | some n => n
    | none => 0

/-- Decimal digit string of n, as produced by Python str on a nonnegative
int. -/
def natDigits (n : Nat) : List Char :=
  if _h : n < 10 then [Char.ofNat (48 + n)]
  else natDigits (n / 10) ++ [Char.ofNat (48 + n % 10)]
termination_by n
decreasing_by
  exact Nat.div_lt_self (by omega) (by omega)

/-- SnakeGame.save_high_score (snake.py 364-370) and _save_high_score
(game.py 551-555): write str(score); scores are nonnegative integers. -/
def saveHighScore (n : Nat) : FileContent := FileContent.content (natDigits n)

end Persist

/-! Shared auxiliary lemmas about the embedded operations. -/

theorem Term.mem_allCells {w h : Nat} {c : Pos} :
    c ∈ Term.allCells w h ↔
      1 ≤ c.1 ∧ c.1 ≤ (w : Int) ∧ 1 ≤ c.2 ∧ c.2 ≤ (h : Int) := by
  obtain ⟨x, y⟩ := c
  unfold Term.allCells
  simp only [List.mem_flatMap, List.mem_map, List.mem_range, Prod.mk.injEq]
  constructor
  · rintro ⟨i, hi, j, hj, hx, hy⟩
    omega
  · rintro ⟨h1, h2, h3, h4⟩
    exact ⟨(x - 1).toNat, by omega, (y - 1).toNat, by omega, by omega, by omega⟩

theorem Gui.mem_allCellsG {w h : Nat} {c : Pos} :
    c ∈ Gui.allCells w h ↔
      0 ≤ c.1 ∧ c.1 < (w : Int) ∧ 0 ≤ c.2 ∧ c.2 < (h : Int) := by
  obtain ⟨x, y⟩ := c
  unfold Gui.allCells
  simp only [List.mem_flatMap, List.mem_map, List.mem_range, Prod.mk.injEq]
  constructor
  · rintro ⟨i, hi, j, hj, hx, hy⟩
    omega
  · rintro ⟨h1, h2, h3, h4⟩
    exact ⟨x.toNat, by omega, y.toNat, by omega, by omega, by omega⟩

theorem Term.mem_availableCells {w h : Nat} {s : Term.Snake} {c : Pos} :
    c ∈ Term.availableCells w h s ↔ c ∈ Term.allCells w h ∧ c ∉ s.body := by
  unfold Term.availableCells Term.Snake.occupies
  simp only [List.mem_filter, Bool.not_eq_eq_eq_not, Bool.not_true,
    ← Bool.not_eq_true, List.elem_iff]

theorem Term.placeFood_some_not_mem {w h k : Nat} {s : Term.Snake} {c : Pos}
    (hp : Term.placeFood w h k s = some c) : c ∉ s.body := by
  unfold Term.placeFood at hp
  dsimp only at hp
  split at hp
  · exact absurd hp (by simp)
  · have hmem : c ∈ Term.availableCells w h s := by
      have := Option.some.injEq .. ▸ hp
      exact Option.some_injective _ hp ▸ List.get_mem _ _ _
    exact (Term.mem_availableCells.mp hmem).2

theorem Term.placeFood_none_iff {w h k : Nat} {s : Term.Snake} :
    Term.placeFood w h k s = none ↔ Term.availableCells w h s = [] := by
  unfold Term.placeFood
  dsimp only
  split
  · simp [*]
  · simp [*]

theorem Term.availableCells_eq_nil_iff {w h : Nat} {s : Term.Snake} :
    Term.availableCells w h s = [] ↔
      ∀ c ∈ Term.allCells w h, c ∈ s.body := by
  unfold Term.availableCells Term.Snake.occupies
  rw [List.filter_eq_nil_iff]
  constructor
  · intro hall c hc
    have := hall c hc
    simpa [List.elem_iff] using this
  · intro hall c hc
    simpa [List.elem_iff] using hall c hc

theorem Gui.mem_availableCellsG {w h : Nat} {body : List Pos} {c : Pos} :
    c ∈ Gui.availableCells w h body ↔ c ∈ Gui.allCells w h ∧ c ∉ body := by
  unfold Gui.availableCells
  simp only [List.mem_filter, Bool.not_eq_eq_eq_not, Bool.not_true,
    ← Bool.not_eq_true, List.elem_iff]

theorem Gui.spawnFood_some_not_mem {w h k : Nat} {body : List Pos} {c : Pos}
    (hp : Gui.spawnFood w h k body = some c) : c ∉ body := by
  unfold Gui.spawnFood at hp
  dsimp only at hp
  split at hp
  · exact absurd hp (by simp)
  · have hmem : c ∈ Gui.availableCells w h body :=
      Option.some_injective _ hp ▸ List.get_mem _ _ _
    exact (Gui.mem_availableCellsG.mp hmem).2

theorem Gui.spawnFood_none_iff {w h k : Nat} {body : List Pos} :
    Gui.spawnFood w h k body = none ↔ Gui.availableCells w h body = [] := by
  unfold Gui.spawnFood
  dsimp only
  split
  · simp [*]
  · simp [*]

theorem Gui.availableCellsG_eq_nil_iff {w h : Nat} {body : List Pos} :
    Gui.availableCells w h body = [] ↔ ∀ c ∈ Gui.allCells w h, c ∈ body := by
  unfold Gui.availableCells
  rw [List.filter_eq_nil_iff]
  constructor
  · intro hall c hc
    simpa [List.elem_iff] using hall c hc
  · intro hall c hc
    simpa [List.elem_iff] using hall c hc

theorem Term.setDirection_body (s : Term.Snake) (d : Term.Direction) :
    (s.setDirection d).body = s.body := by
  unfold Term.Snake.setDirection
  split <;> rfl

theorem Gui.setDirection_bodyG (s : Gui.Snake) (v : Pos) :
    (s.setDirection v).body = s.body := by
  unfold Gui.Snake.setDirection
  split <;> rfl

theorem Term.move_body {s : Term.Snake} (hne : s.body ≠ []) (grow : Bool) :
    (s.move grow).body =
      (s.head.1 + s.direction.dx, s.head.2 + s.direction.dy) ::
        (if grow then s.body else s.body.dropLast) := by
  unfold Term.Snake.move
  cases grow
  · obtain ⟨_ | ⟨b, t⟩, d⟩ := s
    · exact absurd rfl hne
    · simp [List.dropLast_cons₂]
  · simp

theorem Gui.move_bodyG {s : Gui.Snake} (hne : s.body ≠ []) (grow : Bool) :
    (s.move grow).body =
      (s.head.1 + s.direction.1, s.head.2 + s.direction.2) ::
        (if grow then s.body else s.body.dropLast) := by
  unfold Gui.Snake.move
  cases grow
  · obtain ⟨_ | ⟨b, t⟩, d, p⟩ := s
    · exact absurd rfl hne
    · simp [List.dropLast_cons₂]
  · simp

/-- The horizontally laid out initial body used by both editions: cells
(cx - i, cy) for i below len are pairwise distinct. -/
theorem horizontalBody_nodup (cx cy : Int) (len : Nat) :
    ((List.range len).map (fun (i : Nat) => (cx - (i : Int), cy))).Nodup := by
  refine List.Nodup.map ?_ (List.nodup_range len)
  intro i j hij
  simp only [Prod.mk.injEq] at hij
  omega

theorem horizontalBody_length (cx cy : Int) (len : Nat) :
    ((List.range len).map (fun (i : Nat) => (cx - (i : Int), cy))).length = len := by
  simp

theorem horizontalBody_ne_nil (cx cy : Int) {len : Nat} (hlen : 1 ≤ len) :
    ((List.range len).map (fun (i : Nat) => (cx - (i : Int), cy))) ≠ [] := by
  intro hcon
  have := congrArg List.length hcon
  simp at this
  omega

/-! Claim C2: direction requests. -/

/-- C2: for every terminal-edition snake, requesting the exact opposite of the
current direction is a silent no-op that leaves the snake (in particular its
stored direction) unchanged, while requesting any vector that is not the
exact opposite always takes effect: the stored direction becomes the
requested vector and the body is untouched. This covers in particular the
four cardinal unit vectors: the opposite one is dropped, the other three
(including the current direction itself) are applied. -/
theorem c2_direction_request (s : Term.Snake) (v : Term.Direction) :
    (v.dx = -s.direction.dx ∧ v.dy = -s.direction.dy → s.setDirection v = s) ∧
    (¬(v.dx = -s.direction.dx ∧ v.dy = -s.direction.dy) →
      (s.setDirection v).direction = v ∧ (s.setDirection v).body = s.body) := by
  have hcond : s.direction.isOpposite v = true ↔
      (v.dx = -s.direction.dx ∧ v.dy = -s.direction.dy) := by
    simp only [Term.Direction.isOpposite, decide_eq_true_eq]
    omega
  constructor
  · intro hv
    simp [Term.Snake.setDirection, hcond.mpr hv]
  · intro hv
    have hfalse : s.direction.isOpposite v = false := by
      rcases Bool.eq_false_or_eq_true (s.direction.isOpposite v) with ht | hf
      · exact absurd (hcond.mp ht) hv
      · exact hf
    simp [Term.Snake.setDirection, hfalse]

/-- C2 witness: a snake heading right drops a request for left but accepts a
request for down, which becomes the stored direction. -/
theorem c2_witness :
    (Term.Snake.setDirection ⟨[(5, 5)], ⟨1, 0⟩⟩ ⟨-1, 0⟩ = ⟨[(5, 5)], ⟨1, 0⟩⟩) ∧
    (Term.Snake.setDirection ⟨[(5, 5)], ⟨1, 0⟩⟩ ⟨0, 1⟩).direction = ⟨0, 1⟩ :=
  ⟨(c2_direction_request ⟨[(5, 5)], ⟨1, 0⟩⟩ ⟨-1, 0⟩).1 (by decide),
   ((c2_direction_request ⟨[(5, 5)], ⟨1, 0⟩⟩ ⟨0, 1⟩).2 (by decide)).1⟩

/-! Claim C3: wall checks. -/

/-- C3 counterexample: the claim fails for the terminal edition. The position
(0, 5) lies strictly inside [0,w) x [0,h) of the 40 x 20 terminal board, yet
_hit_wall reports a wall hit there (the terminal playable interior is
[1,w] x [1,h]; column 0 is border wall). -/
theorem c3_counterexample :
    ¬(Term.hitWall Term.BOARD_WIDTH Term.BOARD_HEIGHT (0, 5) = true ↔
        ¬(0 ≤ (0 : Int) ∧ (0 : Int) < (Term.BOARD_WIDTH : Int) ∧
          0 ≤ (5 : Int) ∧ (5 : Int) < (Term.BOARD_HEIGHT : Int))) := by
  decide

/-- C3 amended: the GUI edition's wall check is exactly as claimed: a position
fails _within_bounds iff it lies outside [0,w) x [0,h). The terminal
edition's _hit_wall instead reports a hit iff the position lies outside the
playable interior [1,w] x [1,h] (its board reserves a 1-cell border as
wall). -/
theorem c3_wall_check_amended (w h : Nat) (p : Pos) :
    (Gui.withinBounds w h p = false ↔
      ¬(0 ≤ p.1 ∧ p.1 < (w : Int) ∧ 0 ≤ p.2 ∧ p.2 < (h : Int))) ∧
    (Term.hitWall w h p = true ↔
      ¬(1 ≤ p.1 ∧ p.1 ≤ (w : Int) ∧ 1 ≤ p.2 ∧ p.2 ≤ (h : Int))) := by
  constructor
  · simp [Gui.withinBounds]
  · simp only [Term.hitWall, decide_eq_true_eq]
    omega

/-! Claim C7: food placement. -/

/-- C7: in both editions food placement never returns a cell occupied by the
snake body, and it returns none exactly when the snake covers every cell of
the playable board (cells [1,w] x [1,h] for the terminal edition, cells
[0,w) x [0,h) for the GUI edition). -/
theorem c7_food_placement (w h k : Nat) (s : Term.Snake) (body : List Pos) :
    ((∀ c : Pos, Term.placeFood w h k s = some c → c ∉ s.body) ∧
      (Term.placeFood w h k s = none ↔
        ∀ c : Pos, 1 ≤ c.1 → c.1 ≤ (w : Int) → 1 ≤ c.2 → c.2 ≤ (h : Int) →
          c ∈ s.body)) ∧
    ((∀ c : Pos, Gui.spawnFood w h k body = some c → c ∉ body) ∧
      (Gui.spawnFood w h k body = none ↔
        ∀ c : Pos, 0 ≤ c.1 → c.1 < (w : Int) → 0 ≤ c.2 → c.2 < (h : Int) →
          c ∈ body)) := by
  refine ⟨⟨fun c hc => Term.placeFood_some_not_mem hc, ?_⟩,
    ⟨fun c hc => Gui.spawnFood_some_not_mem hc, ?_⟩⟩
  · rw [Term.placeFood_none_iff, Term.availableCells_eq_nil_iff]
    constructor
    · intro hall c h1 h2 h3 h4
      exact hall c (Term.mem_allCells.mpr ⟨h1, h2, h3, h4⟩)
    · intro hall c hc
      obtain ⟨h1, h2, h3, h4⟩ := Term.mem_allCells.mp hc
      exact hall c h1 h2 h3 h4
  · rw [Gui.spawnFood_none_iff, Gui.availableCellsG_eq_nil_iff]
    constructor
    · intro hall c h1 h2 h3 h4
      exact hall c (Gui.mem_allCellsG.mpr ⟨h1, h2, h3, h4⟩)
    · intro hall c hc
      obtain ⟨h1, h2, h3, h4⟩ := Gui.mem_allCellsG.mp hc
      exact hall c h1 h2 h3 h4

/-- C7 witness: on a 2 x 1 terminal board whose single free cell is (2, 1),
food lands on that free cell and indeed misses the snake; on the 2 x 1 GUI
board fully covered by the body, spawning returns none. -/
theorem c7_witness :
    (2, 1) ∉ ([(1, 1)] : List Pos) ∧ Gui.spawnFood 2 1 0 [(0, 0), (1, 0)] = none :=
  ⟨(c7_food_placement 2 1 0 ⟨[(1, 1)], ⟨1, 0⟩⟩ []).1.1 (2, 1) (by decide),
   (c7_food_placement 2 1 0 ⟨[(1, 1)], ⟨1, 0⟩⟩ [(0, 0), (1, 0)]).2.2.mpr
     (by
       rintro ⟨x, y⟩ h1 h2 h3 h4
       simp only [List.mem_cons, List.not_mem_nil, or_false, Prod.mk.injEq]
       omega)⟩

/-! Claim C5: the initial snake. -/

/-- C5 counterexample: on a 3 x 3 board with initial length 3 (so L ≤ w as
the claim demands) the constructed body contains (-1, 1), whose x-coordinate
is negative and hence lies outside the board under either edition's notion
of bounds; the claim as stated is false. -/
theorem c5_counterexample :
    (3 : Nat) ≤ 3 ∧ ((-1 : Int), (1 : Int)) ∈ (Term.createInitialSnake 3 3 3).body ∧
    ¬(0 ≤ (-1 : Int)) := by decide

/-- C5 amended: for every board w x h with h ≥ 2 and every initial length L
with 1 ≤ L ≤ w/2, the initial snake is a body of exactly L pairwise distinct
cells, all inside the playable interior [1,w] x [1,h], arranged horizontally:
the head is (w/2, h/2) (integer division) and the cells are
(w/2 - i, h/2) for i < L, i.e. they extend L-1 cells in the negative-x
direction; the initial direction is (1,0). (The stock configuration 5 ≤ 40/2
satisfies this; lengths up to w would leave the board on the left.) -/
theorem c5_initial_snake_amended (w h len : Nat) (h1 : 1 ≤ len)
    (h2 : len ≤ w / 2) (h3 : 2 ≤ h) :
    (Term.createInitialSnake w h len).body.length = len ∧
    (Term.createInitialSnake w h len).body.Nodup ∧
    (∀ c ∈ (Term.createInitialSnake w h len).body,
      1 ≤ c.1 ∧ c.1 ≤ (w : Int) ∧ 1 ≤ c.2 ∧ c.2 ≤ (h : Int)) ∧
    (Term.createInitialSnake w h len).body.headD (0, 0) =
      (((w / 2 : Nat) : Int), ((h / 2 : Nat) : Int)) ∧
    (∀ i : Nat, i < len →
      (((w / 2 : Nat) : Int) - (i : Int), ((h / 2 : Nat) : Int)) ∈
        (Term.createInitialSnake w h len).body) ∧
    (Term.createInitialSnake w h len).direction = ⟨1, 0⟩ := by
  unfold Term.createInitialSnake
  dsimp only
  refine ⟨by simp, horizontalBody_nodup _ _ _, ?_, ?_, ?_, rfl⟩
  · rintro c hc
    obtain ⟨i, hi, rfl⟩ := List.mem_map.mp hc
    rw [List.mem_range] at hi
    dsimp only
    omega
  · obtain ⟨m, rfl⟩ : ∃ m, len = m + 1 := ⟨len - 1, by omega⟩
    rw [List.range_succ_eq_map]
    simp
  · intro i hi
    exact List.mem_map.mpr ⟨i, List.mem_range.mpr hi, rfl⟩

/-- C5 witness: the stock terminal configuration (40 x 20 board, length 5)
satisfies the amended hypotheses, and its initial body indeed has exactly 5
distinct cells. -/
theorem c5_witness :
    (1 : Nat) ≤ 5 ∧ (5 : Nat) ≤ 40 / 2 ∧ (2 : Nat) ≤ 20 ∧
    (Term.createInitialSnake 40 20 5).body.length = 5 ∧
    (Term.createInitialSnake 40 20 5).body.Nodup :=
  ⟨by decide, by decide, by decide,
   (c5_initial_snake_amended 40 20 5 (by decide) (by decide) (by decide)).1,
   (c5_initial_snake_amended 40 20 5 (by decide) (by decide) (by decide)).2.1⟩

/-! Claim C1: self-collision checks. -/

/-- C1 counterexample: the claim fails for the GUI edition. With body
[(1,1),(1,2)], candidate head (1,2) (the current tail) and a growing move,
the tail cell is still occupied after the move (a growing move does not
vacate the tail), yet the GUI check (game.py 289) excludes the tail
unconditionally and reports no self hit. -/
theorem c1_counterexample :
    Gui.selfCollisionCheck [(1, 1), (1, 2)] (1, 2) = false ∧
    (1, 2) ∈ ([(1, 1), (1, 2)] : List Pos) ∧
    (1, 2) ∈ ((Gui.candidateSnakeG [(1, 1), (1, 2)] (1, 2)).move true).body.tail := by
  decide

/-- C1 amended: the terminal edition's check is exactly as the claim states:
it reports a self hit iff the candidate head equals a body cell that is still
occupied after the move, the current tail being excluded exactly when the
move does not grow. The GUI edition's check always excludes the current tail
cell, even on growing moves; it satisfies the same contract whenever the move
does not grow or the candidate head does not lie on the body at all (as in
reachable play, where food never lies on the body). -/
theorem c1_self_collision_amended (body : List Pos) (nh : Pos) (grow : Bool)
    (hne : body ≠ []) :
    (Term.selfCollision body nh grow = true ↔
      (nh ∈ body ∧ nh ∈ ((Term.candidateSnake body nh).move grow).body.tail)) ∧
    ((grow = false ∨ nh ∉ body) →
      (Gui.selfCollisionCheck body nh = true ↔
        (nh ∈ body ∧ nh ∈ ((Gui.candidateSnakeG body nh).move grow).body.tail))) := by
  have htail : ((Term.candidateSnake body nh).move grow).body.tail =
      if grow then body else body.dropLast := by
    rw [Term.move_body (s := Term.candidateSnake body nh) hne]
    rfl
  have htailG : ((Gui.candidateSnakeG body nh).move grow).body.tail =
      if grow then body else body.dropLast := by
    rw [Gui.move_bodyG (s := Gui.candidateSnakeG body nh) hne]
    rfl
  constructor
  · rw [htail]
    cases grow
    · simp only [Term.selfCollision, Term.bodyToCheck, Bool.false_eq_true,
        if_false, List.elem_iff]
      exact ⟨fun hm => ⟨List.mem_of_mem_dropLast hm, hm⟩, fun hm => hm.2⟩
    · simp [Term.selfCollision, Term.bodyToCheck, List.elem_iff]
  · intro hside
    rw [htailG]
    cases grow
    · simp only [Bool.false_eq_true, if_false]
      unfold Gui.selfCollisionCheck
      rw [List.elem_iff]
      exact ⟨fun hm => ⟨List.mem_of_mem_dropLast hm, hm⟩, fun hm => hm.2⟩
    · rcases hside with hfalse | hnotmem
      · exact absurd hfalse (by simp)
      · simp only [if_true]
        unfold Gui.selfCollisionCheck
        rw [List.elem_iff]
        constructor
        · intro hm
          exact absurd (List.mem_of_mem_dropLast hm) hnotmem
        · intro hm
          exact absurd hm.1 hnotmem

/-- C1 witness: concrete instances of the amended contract: the terminal
check fires on a growing move onto the tail, and the GUI check fires on a
non-growing move onto a non-tail segment. -/
theorem c1_witness :
    Term.selfCollision [(1, 1), (1, 2)] (1, 2) true = true ∧
    Gui.selfCollisionCheck [(1, 1), (1, 2)] (1, 1) = true :=
  ⟨(c1_self_collision_amended [(1, 1), (1, 2)] (1, 2) true (by decide)).1.mpr
     (by decide),
   ((c1_self_collision_amended [(1, 1), (1, 2)] (1, 1) false (by decide)).2
     (Or.inl rfl)).mpr (by decide)⟩

/-! Claim C8: wall hits leave the board untouched. -/

/-- C8: whenever the computed next head is a wall coordinate, the tick enters
game over with a loss outcome and the snake body is unchanged from its
pre-move state — the move is never applied. For the terminal edition the
updated state is literally the pre-state with the game-over flag raised; for
the GUI edition the state becomes GAME_OVER with victory false, and body,
food and score are unchanged (only the direction commit, which precedes the
wall check, has taken effect). -/
theorem c8_wall_hit (w h k : Nat) (g : Term.GameState) (gg : Gui.State)
    (hT : Term.hitWall w h (Term.nextHead g) = true)
    (hG : Gui.withinBounds w h (Gui.nextHeadG gg) = false) :
    Term.update w h k g = { g with gameOver := true } ∧
    ((Gui.advanceSnake w h k gg).gstate = Gui.GState.gameOver ∧
     (Gui.advanceSnake w h k gg).victory = false ∧
     (Gui.advanceSnake w h k gg).snake.body = gg.snake.body ∧
     (Gui.advanceSnake w h k gg).food = gg.food ∧
     (Gui.advanceSnake w h k gg).score = gg.score) := by
  constructor
  · unfold Term.update
    dsimp only
    rw [if_pos hT]
  · unfold Gui.advanceSnake Gui.advanceSnakeT
    dsimp only
    simp only [hG, Bool.not_false, if_true]
    unfold Gui.enterGameOver
    dsimp only
    split
    · exact ⟨rfl, rfl, rfl, rfl, rfl⟩
    · exact ⟨rfl, rfl, rfl, rfl, rfl⟩

/-- C8 witness: on a 40 x 20 board, a terminal snake at (40,10) stepping
right hits the border and the tick only raises the game-over flag, while a
GUI snake at (39,10) stepping right leaves the grid and the frame enters
GAME_OVER with the body intact. -/
theorem c8_witness :
    Term.update 40 20 0
        { snake := ⟨[(40, 10)], ⟨1, 0⟩⟩, food := some (1, 1), score := 2,
          highScore := 9, paused := false, gameOver := false } =
      { snake := ⟨[(40, 10)], ⟨1, 0⟩⟩, food := some (1, 1), score := 2,
        highScore := 9, paused := false, gameOver := true } ∧
    (Gui.advanceSnake 40 20 0
        { gstate := Gui.GState.playing, score := 3, highScore := 9,
          victory := false, snake := ⟨[(39, 10)], (1, 0), (1, 0)⟩,
          food := some (1, 1), themeIdx := 0, running := true }).snake.body =
      [(39, 10)] :=
  ⟨(c8_wall_hit 40 20 0
      { snake := ⟨[(40, 10)], ⟨1, 0⟩⟩, food := some (1, 1), score := 2,
        highScore := 9, paused := false, gameOver := false }
      { gstate := Gui.GState.playing, score := 3, highScore := 9,
        victory := false, snake := ⟨[(39, 10)], (1, 0), (1, 0)⟩,
        food := some (1, 1), themeIdx := 0, running := true }
      (by decide) (by decide)).1,
   (c8_wall_hit 40 20 0
      { snake := ⟨[(40, 10)], ⟨1, 0⟩⟩, food := some (1, 1), score := 2,
        highScore := 9, paused := false, gameOver := false }
      { gstate := Gui.GState.playing, score := 3, highScore := 9,
        victory := false, snake := ⟨[(39, 10)], (1, 0), (1, 0)⟩,
        food := some (1, 1), themeIdx := 0, running := true }
      (by decide) (by decide)).2.2.2.1⟩

/-! Claim C4: body invariants under ticks. -/

theorem Term.update_snake_cases (w h k : Nat) (g : Term.GameState) :
    (Term.update w h k g).snake = g.snake ∨
    ((Term.update w h k g).snake =
        g.snake.move (decide (g.food = some (Term.nextHead g))) ∧
      Term.selfCollision g.snake.body (Term.nextHead g)
        (decide (g.food = some (Term.nextHead g))) = false) := by
  unfold Term.update
  dsimp only
  split
  · exact Or.inl rfl
  · split
    · exact Or.inl rfl
    · rename_i hsc
      split <;> split <;> exact Or.inr ⟨rfl, by simpa using hsc⟩

theorem Term.update_preserves {w h k : Nat} {g : Term.GameState}
    (hne : g.snake.body ≠ []) (hnd : g.snake.body.Nodup) :
    (Term.update w h k g).snake.body ≠ [] ∧
      (Term.update w h k g).snake.body.Nodup := by
  rcases Term.update_snake_cases w h k g with hsame | ⟨hmv, hsc⟩
  · rw [hsame]
    exact ⟨hne, hnd⟩
  · rw [hmv, Term.move_body hne]
    have hnotin : Term.nextHead g ∉
        Term.bodyToCheck g.snake.body (decide (g.food = some (Term.nextHead g))) := by
      intro hmem
      have hc : Term.selfCollision g.snake.body (Term.nextHead g)
          (decide (g.food = some (Term.nextHead g))) = true :=
        List.elem_iff.mpr hmem
      exact Bool.noConfusion (hc.symm.trans hsc)
    refine ⟨by simp, List.nodup_cons.mpr ⟨?_, ?_⟩⟩
    · intro hmem
      exact hnotin (by simpa [Term.bodyToCheck] using hmem)
    · rcases Bool.eq_false_or_eq_true (decide (g.food = some (Term.nextHead g)))
        with hb | hb <;> rw [hb]
      · simpa using hnd
      · simpa using List.Nodup.sublist (List.dropLast_sublist _) hnd

theorem Term.initState_inv (w h k hs : Nat) :
    (Term.initState w h k hs).snake.body ≠ [] ∧
      (Term.initState w h k hs).snake.body.Nodup := by
  unfold Term.initState Term.createInitialSnake
  dsimp only
  exact ⟨horizontalBody_ne_nil _ _ (by decide), horizontalBody_nodup _ _ _⟩

theorem Gui.enterGameOver_fields (v : Bool) (g : Gui.State) :
    (Gui.enterGameOver v g).snake = g.snake ∧
      (Gui.enterGameOver v g).food = g.food ∧
      (Gui.enterGameOver v g).score = g.score := by
  unfold Gui.enterGameOver
  dsimp only
  split <;> exact ⟨rfl, rfl, rfl⟩

theorem Gui.advance_fields (w h k : Nat) (g : Gui.State) :
    ((Gui.advanceSnake w h k g).snake = g.snake.commitDirection ∧
      (Gui.advanceSnake w h k g).food = g.food ∧
      (Gui.advanceSnake w h k g).score = g.score) ∨
    (Gui.selfCollisionCheck (g.snake.commitDirection).body (Gui.nextHeadG g) = false ∧
      (Gui.advanceSnake w h k g).snake =
        (g.snake.commitDirection).move (decide (g.food = some (Gui.nextHeadG g))) ∧
      ((g.food = some (Gui.nextHeadG g) ∧
         (Gui.advanceSnake w h k g).food = Gui.spawnFood w h k
           ((g.snake.commitDirection).move
             (decide (g.food = some (Gui.nextHeadG g)))).body ∧
         (Gui.advanceSnake w h k g).score = g.score + 1) ∨
       (¬(g.food = some (Gui.nextHeadG g)) ∧
         (Gui.advanceSnake w h k g).food = g.food ∧
         (Gui.advanceSnake w h k g).score = g.score))) := by
  unfold Gui.advanceSnake Gui.advanceSnakeT
  dsimp only
  split
  · exact Or.inl ⟨(Gui.enterGameOver_fields false _).1,
      (Gui.enterGameOver_fields false _).2.1, (Gui.enterGameOver_fields false _).2.2⟩
  · split
    · exact Or.inl ⟨(Gui.enterGameOver_fields false _).1,
        (Gui.enterGameOver_fields false _).2.1, (Gui.enterGameOver_fields false _).2.2⟩
    · rename_i hsc
      have hscf : Gui.selfCollisionCheck (g.snake.commitDirection).body
          (Gui.nextHeadG g) = false := by simpa using hsc
      cases hgw : decide (g.food = some (Gui.nextHeadG g)) with
      | false =>
        have hnf : ¬(g.food = some (Gui.nextHeadG g)) := of_decide_eq_false hgw
        simp only [Bool.false_eq_true, if_false]
        split
        · exact Or.inr ⟨hscf, (Gui.enterGameOver_fields true _).1,
            Or.inr ⟨hnf, (Gui.enterGameOver_fields true _).2.1,
              (Gui.enterGameOver_fields true _).2.2⟩⟩
        · exact Or.inr ⟨hscf, rfl, Or.inr ⟨hnf, rfl, rfl⟩⟩
      | true =>
        have hyf : g.food = some (Gui.nextHeadG g) := of_decide_eq_true hgw
        simp only [if_true]
        split
        · split
          · exact Or.inr ⟨hscf, (Gui.enterGameOver_fields true _).1,
              Or.inl ⟨hyf, (Gui.enterGameOver_fields true _).2.1,
                (Gui.enterGameOver_fields true _).2.2⟩⟩
          · exact Or.inr ⟨hscf, rfl, Or.inl ⟨hyf, rfl, rfl⟩⟩
        · split
          · exact Or.inr ⟨hscf, (Gui.enterGameOver_fields true _).1,
              Or.inl ⟨hyf, (Gui.enterGameOver_fields true _).2.1,
                (Gui.enterGameOver_fields true _).2.2⟩⟩
          · exact Or.inr ⟨hscf, rfl, Or.inl ⟨hyf, rfl, rfl⟩⟩

theorem Gui.advance_preserves {w h k : Nat} {g : Gui.State}
    (hinv : Gui.InvG g) : Gui.InvG (Gui.advanceSnake w h k g) := by
  obtain ⟨hne, hnd, hfood⟩ := hinv
  rcases Gui.advance_fields w h k g with ⟨hs, hf, _⟩ | ⟨hsc, hs, hrest⟩
  · refine ⟨?_, ?_, ?_⟩
    · rw [hs]; exact hne
    · rw [hs]; exact hnd
    · intro c hc
      rw [hs]
      exact hfood c (hf ▸ hc)
  · have hnotail : Gui.nextHeadG g ∉ (g.snake.commitDirection).body.dropLast := by
      intro hmem
      exact Bool.noConfusion ((List.elem_iff.mpr hmem).symm.trans hsc)
    rcases hrest with ⟨hfe, hf, _⟩ | ⟨hfe, hf, _⟩
    · have hdec : decide (g.food = some (Gui.nextHeadG g)) = true := decide_eq_true hfe
      have hmove : ((g.snake.commitDirection).move
          (decide (g.food = some (Gui.nextHeadG g)))).body =
          Gui.nextHeadG g :: (g.snake.commitDirection).body := by
        rw [hdec, Gui.move_bodyG (s := g.snake.commitDirection) hne]
        rfl
      refine ⟨?_, ?_, ?_⟩
      · rw [hs, hmove]; simp
      · rw [hs, hmove]
        exact List.nodup_cons.mpr ⟨hfood _ hfe, hnd⟩
      · intro c hc
        rw [hf] at hc
        rw [hs]
        exact Gui.spawnFood_some_not_mem hc
    · have hdec : decide (g.food = some (Gui.nextHeadG g)) = false := decide_eq_false hfe
      have hmove : ((g.snake.commitDirection).move
          (decide (g.food = some (Gui.nextHeadG g)))).body =
          Gui.nextHeadG g :: (g.snake.commitDirection).body.dropLast := by
        rw [hdec, Gui.move_bodyG (s := g.snake.commitDirection) hne]
        rfl
      refine ⟨?_, ?_, ?_⟩
      · rw [hs, hmove]; simp
      · rw [hs, hmove]
        exact List.nodup_cons.mpr ⟨hnotail,
          List.Nodup.sublist (List.dropLast_sublist _) hnd⟩
      · intro c hc
        rw [hf] at hc
        rw [hs, hmove]
        intro hmem
        rcases List.mem_cons.mp hmem with hqe | htail
        · exact hfe (hqe ▸ hc)
        · exact hfood c hc (List.mem_of_mem_dropLast htail)

theorem Gui.initRound_inv (k hs : Nat) : Gui.InvG (Gui.initRound k hs) := by
  refine ⟨?_, ?_, ?_⟩
  · show ((List.range Gui.INITIAL_LENGTH).map
      (fun (i : Nat) => (((Gui.GRID_WIDTH / 2 : Nat) : Int) - (i : Int),
        ((Gui.GRID_HEIGHT / 2 : Nat) : Int)))) ≠ []
    exact horizontalBody_ne_nil _ _ (by decide)
  · show ((List.range Gui.INITIAL_LENGTH).map
      (fun (i : Nat) => (((Gui.GRID_WIDTH / 2 : Nat) : Int) - (i : Int),
        ((Gui.GRID_HEIGHT / 2 : Nat) : Int)))).Nodup
    exact horizontalBody_nodup _ _ _
  · intro c hc
    have hc2 : Gui.spawnFood Gui.GRID_WIDTH Gui.GRID_HEIGHT k
        (Gui.Snake.reset Gui.GRID_WIDTH Gui.GRID_HEIGHT Gui.INITIAL_LENGTH).body
        = some c := hc
    exact Gui.spawnFood_some_not_mem hc2

theorem Gui.reachable_invG {g : Gui.State} (hr : Gui.ReachableG g) :
    Gui.InvG g := by
  induction hr with
  | start k hs => exact Gui.initRound_inv k hs
  | tick k hr hst ih => exact Gui.advance_preserves ih
  | steer v hr ih =>
    obtain ⟨hne, hnd, hfood⟩ := ih
    refine ⟨?_, ?_, ?_⟩
    · simpa [Gui.setDirection_bodyG] using hne
    · simpa [Gui.setDirection_bodyG] using hnd
    · intro c hc
      simpa [Gui.setDirection_bodyG] using hfood c hc

/-- C4: in every state reachable from a round start by tick updates performed
while the game is not over (with direction steering allowed in between, which
only changes the stored direction), the snake body is nonempty and free of
duplicate cells — in both editions. -/
theorem c4_body_invariant :
    (∀ (w h : Nat) (g : Term.GameState), Term.Reachable w h g →
      g.snake.body ≠ [] ∧ g.snake.body.Nodup) ∧
    (∀ g : Gui.State, Gui.ReachableG g →
      g.snake.body ≠ [] ∧ g.snake.body.Nodup) := by
  constructor
  · intro w h g hr
    induction hr with
    | init k hs => exact Term.initState_inv w h k hs
    | tick k hr hnot ih => exact Term.update_preserves ih.1 ih.2
    | steer d hr ih =>
      refine ⟨?_, ?_⟩
      · simpa [Term.setDirection_body] using ih.1
      · simpa [Term.setDirection_body] using ih.2
  · intro g hr
    exact ⟨(Gui.reachable_invG hr).1, (Gui.reachable_invG hr).2.1⟩

/-- C4 witness: the round-start states of both editions are reachable and
indeed have nonempty, duplicate-free bodies. -/
theorem c4_witness :
    ((Term.initState 40 20 0 0).snake.body ≠ [] ∧
      (Term.initState 40 20 0 0).snake.body.Nodup) ∧
    ((Gui.initRound 0 0).snake.body ≠ [] ∧
      (Gui.initRound 0 0).snake.body.Nodup) :=
  ⟨c4_body_invariant.1 40 20 _ (Term.Reachable.init 0 0),
   c4_body_invariant.2 _ (Gui.ReachableG.start 0 0)⟩

/-! Claim C6: score and high score on growing ticks. -/

theorem Gui.enterGameOver_high (v : Bool) (g : Gui.State) :
    (Gui.enterGameOver v g).highScore = max g.highScore g.score := by
  unfold Gui.enterGameOver
  dsimp only
  split <;> (dsimp only; omega)

/-- C6 counterexample: the claim fails on both editions. In the GUI edition a
growing tick that raises the high score emits, in source order, the score
increment, then the food spawn, then the high-score update: the high score is
updated after new food is spawned, not before. In the terminal edition a
growing tick never touches the high score at all (score 5 grows past the
stored high score 3, which stays 3 until the game-over screen). -/
theorem c6_counterexample :
    (Gui.advanceSnakeT 28 20 0 Gui.exampleGrowState).2 =
      [Gui.Event.incScore, Gui.Event.spawnFoodEv, Gui.Event.setHighScore,
        Gui.Event.persistHigh] ∧
    ¬ Gui.eventPrecedes (Gui.advanceSnakeT 28 20 0 Gui.exampleGrowState).2
        Gui.Event.setHighScore Gui.Event.spawnFoodEv ∧
    (Term.update 40 20 0 Term.exampleGrowState).score = 6 ∧
    (Term.update 40 20 0 Term.exampleGrowState).highScore = 3 := by
  decide

/-- C6 amended: on every growing tick the score is incremented by exactly 1.
In the GUI edition, when the new score exceeds the high score, the high score
is updated (and persisted) within that same tick, but after new food is
spawned: the growth branch emits incScore, spawnFood and then (exactly when
the new score exceeds the old high) setHighScore and persistHigh, so the
final high score is max(old high, new score). In the terminal edition the
tick leaves the high score unchanged; it is raised to max(high, score) only
by the game-over screen. -/
theorem c6_score_highscore_amended (w h k : Nat) (g : Gui.State)
    (t : Term.GameState)
    (hw : Gui.withinBounds w h (Gui.nextHeadG g) = true)
    (hsc : Gui.selfCollisionCheck (g.snake.commitDirection).body
      (Gui.nextHeadG g) = false)
    (hfe : g.food = some (Gui.nextHeadG g))
    (hwT : Term.hitWall w h (Term.nextHead t) = false)
    (hscT : Term.selfCollision t.snake.body (Term.nextHead t)
      (decide (t.food = some (Term.nextHead t))) = false)
    (hfeT : t.food = some (Term.nextHead t)) :
    (Gui.advanceSnake w h k g).score = g.score + 1 ∧
    (Gui.advanceSnake w h k g).highScore = max g.highScore (g.score + 1) ∧
    (Gui.advanceSnakeT w h k g).2 =
      (if g.highScore < g.score + 1 then
        [Gui.Event.incScore, Gui.Event.spawnFoodEv, Gui.Event.setHighScore,
          Gui.Event.persistHigh]
       else [Gui.Event.incScore, Gui.Event.spawnFoodEv]) ∧
    (g.highScore < g.score + 1 →
      Gui.eventPrecedes (Gui.advanceSnakeT w h k g).2
        Gui.Event.spawnFoodEv Gui.Event.setHighScore) ∧
    (Term.update w h k t).score = t.score + 1 ∧
    (Term.update w h k t).highScore = t.highScore ∧
    (Term.displayGameOver t).highScore = max t.highScore t.score := by
  have hdec : decide (g.food = some (Gui.nextHeadG g)) = true := decide_eq_true hfe
  have hdecT : decide (t.food = some (Term.nextHead t)) = true := decide_eq_true hfeT
  have hscT2 : Term.selfCollision t.snake.body (Term.nextHead t) true = false :=
    hdecT ▸ hscT
  have hGui : (Gui.advanceSnakeT w h k g).1.score = g.score + 1 ∧
      (Gui.advanceSnakeT w h k g).1.highScore = max g.highScore (g.score + 1) ∧
      (Gui.advanceSnakeT w h k g).2 =
        (if g.highScore < g.score + 1 then
          [Gui.Event.incScore, Gui.Event.spawnFoodEv, Gui.Event.setHighScore,
            Gui.Event.persistHigh]
         else [Gui.Event.incScore, Gui.Event.spawnFoodEv]) := by
    unfold Gui.advanceSnakeT
    dsimp only
    simp only [hw, hsc, hdec, Bool.not_true, Bool.false_eq_true, if_false, if_true]
    split
    · rename_i hhs
      split
      · refine ⟨?_, ?_, rfl⟩
        · rw [(Gui.enterGameOver_fields true _).2.2]
        · rw [Gui.enterGameOver_high]
          dsimp only
          omega
      · refine ⟨rfl, ?_, rfl⟩
        dsimp only
        omega
    · rename_i hhs
      split
      · refine ⟨?_, ?_, rfl⟩
        · rw [(Gui.enterGameOver_fields true _).2.2]
        · rw [Gui.enterGameOver_high]
      · refine ⟨rfl, ?_, rfl⟩
        dsimp only
        omega
  have hTerm : (Term.update w h k t).score = t.score + 1 ∧
      (Term.update w h k t).highScore = t.highScore := by
    unfold Term.update
    dsimp only
    simp only [hwT, hdecT, hscT2, Bool.false_eq_true, if_false, if_true]
    split
    · exact ⟨rfl, rfl⟩
    · exact ⟨rfl, rfl⟩
  refine ⟨hGui.1, hGui.2.1, hGui.2.2, ?_, hTerm.1, hTerm.2, ?_⟩
  · intro hhs
    rw [hGui.2.2, if_pos hhs]
    decide
  · unfold Term.displayGameOver
    split
    · dsimp only
      omega
    · omega

/-- C6 witness: in the concrete growing states, the GUI tick raises both the
score and the high score to 1, while the terminal tick raises the score to 6
(the terminal high score staying at 3 is part of the amended statement). -/
theorem c6_witness :
    (Gui.advanceSnake 28 20 0 Gui.exampleGrowState).score = 1 ∧
    (Gui.advanceSnake 28 20 0 Gui.exampleGrowState).highScore = 1 ∧
    (Term.update 40 20 0 Term.exampleGrowState).score = 6 :=
  ⟨(c6_score_highscore_amended 28 20 0 Gui.exampleGrowState Term.exampleGrowState
      (by decide) (by decide) (by decide) (by decide) (by decide) (by decide)).1,
   (c6_score_highscore_amended 28 20 0 Gui.exampleGrowState Term.exampleGrowState
      (by decide) (by decide) (by decide) (by decide) (by decide) (by decide)).2.1,
   (c6_score_highscore_amended 28 20 0 Gui.exampleGrowState Term.exampleGrowState
      (by decide) (by decide) (by decide) (by decide) (by decide) (by decide)).2.2.2.2.1⟩

/-! Claim C9: high-score persistence. -/

theorem Persist.toNat_digitChar {d : Nat} (hd : d < 10) :
    (Char.ofNat (48 + d)).toNat = 48 + d := by
  interval_cases d <;> decide

theorem Persist.isDigitCh_digitChar {d : Nat} (hd : d < 10) :
    Persist.isDigitCh (Char.ofNat (48 + d)) = true := by
  simp only [Persist.isDigitCh, Persist.toNat_digitChar hd, decide_eq_true_eq]
  omega

theorem Persist.natDigits_all_digit (n : Nat) :
    ∀ c ∈ Persist.natDigits n, Persist.isDigitCh c = true := by
  induction n using Nat.strong_induction_on with
  | _ n ih =>
    intro c hc
    unfold Persist.natDigits at hc
    split at hc
    · rename_i hlt
      rw [List.mem_singleton] at hc
      subst hc
      exact Persist.isDigitCh_digitChar hlt
    · rename_i hge
      rcases List.mem_append.mp hc with h1 | h2
      · exact ih (n / 10) (Nat.div_lt_self (by omega) (by omega)) c h1
      · rw [List.mem_singleton] at h2
        subst h2
        exact Persist.isDigitCh_digitChar (by omega)

theorem Persist.natDigits_ne_nil (n : Nat) : Persist.natDigits n ≠ [] := by
  unfold Persist.natDigits
  split
  · simp
  · simp

theorem Persist.digitsVal_append (l : List Char) (c : Char) :
    Persist.digitsVal (l ++ [c]) = Persist.digitsVal l * 10 + Persist.digitVal c := by
  unfold Persist.digitsVal
  rw [List.foldl_append]
  simp only [List.foldl_cons, List.foldl_nil]

theorem Persist.digitsVal_natDigits (n : Nat) :
    Persist.digitsVal (Persist.natDigits n) = n := by
  induction n using Nat.strong_induction_on with
  | _ n ih =>
    unfold Persist.natDigits
    split
    · rename_i hlt
      show Persist.digitsVal [Char.ofNat (48 + n)] = n
      unfold Persist.digitsVal Persist.digitVal
      simp only [List.foldl_cons, List.foldl_nil]
      rw [Persist.toNat_digitChar hlt]
      omega
    · rename_i hge
      rw [Persist.digitsVal_append,
        ih (n / 10) (Nat.div_lt_self (by omega) (by omega))]
      unfold Persist.digitVal
      rw [Persist.toNat_digitChar (by omega : n % 10 < 10)]
      omega

theorem Persist.dropWhile_pySpace_of_digits {l : List Char}
    (hall : ∀ c ∈ l, Persist.isDigitCh c = true) :
    l.dropWhile Persist.pySpace = l := by
  cases l with
  | nil => rfl
  | cons c t =>
    have hd := hall c (by simp)
    have hns : Persist.pySpace c = false := by
      apply decide_eq_false
      intro hsp
      simp only [Persist.isDigitCh, decide_eq_true_eq] at hd
      rcases hsp with hh | hh | hh | hh <;>
        (subst hh; revert hd; decide)
    rw [List.dropWhile_cons, hns]
    simp

theorem Persist.pyStrip_digits {l : List Char}
    (hall : ∀ c ∈ l, Persist.isDigitCh c = true) : Persist.pyStrip l = l := by
  unfold Persist.pyStrip
  rw [Persist.dropWhile_pySpace_of_digits hall,
    Persist.dropWhile_pySpace_of_digits
      (fun c hc => hall c (List.mem_reverse.mp hc)),
    List.reverse_reverse]

theorem Persist.pyInt_natDigits (n : Nat) :
    Persist.pyInt (Persist.natDigits n) = some (n : Int) := by
  have hall := Persist.natDigits_all_digit n
  unfold Persist.pyInt
  split
  · rename_i rest heq
    have hmem : Persist.isDigitCh '-' = true := hall _ (heq ▸ List.mem_cons_self _ _)
    exact absurd hmem (by decide)
  · rename_i rest heq
    have hmem : Persist.isDigitCh '+' = true := hall _ (heq ▸ List.mem_cons_self _ _)
    exact absurd hmem (by decide)
  · rw [if_pos ⟨Persist.natDigits_ne_nil n, List.all_eq_true.mpr hall⟩,
      Persist.digitsVal_natDigits]

/-- C9: high-score persistence round-trips: loading what save wrote yields the
same score, and a missing file, an I/O-failed read, or content that does not
parse as an integer all load as 0 instead of failing. -/
theorem c9_high_score_persistence :
    (∀ n : Nat, Persist.loadHighScore (Persist.saveHighScore n) = (n : Int)) ∧
    Persist.loadHighScore Persist.FileContent.missing = 0 ∧
    Persist.loadHighScore Persist.FileContent.ioErr = 0 ∧
    (∀ text : List Char, Persist.pyInt (Persist.pyStrip text) = none →
      Persist.loadHighScore (Persist.FileContent.content text) = 0) := by
  refine ⟨?_, rfl, rfl, ?_⟩
  · intro n
    unfold Persist.saveHighScore Persist.loadHighScore
    dsimp only
    rw [Persist.pyStrip_digits (Persist.natDigits_all_digit n),
      Persist.pyInt_natDigits n]
  · intro text hnone
    unfold Persist.loadHighScore
    dsimp only
    rw [hnone]

/-- C9 witness: writing 42 and loading yields 42, and loading the non-numeric
content abc yields 0. -/
theorem c9_witness :
    Persist.loadHighScore (Persist.saveHighScore 42) = 42 ∧
    Persist.loadHighScore (Persist.FileContent.content ['a', 'b', 'c']) = 0 :=
  ⟨c9_high_score_persistence.1 42,
   c9_high_score_persistence.2.2.2 ['a', 'b', 'c'] (by decide)⟩

/-! Claim C10: control-loop passes while paused. -/

theorem Term.handleInput_frame :
    ∀ (keys : List Term.Key) (g g1 : Term.GameState),
      Term.handleInput g keys = some g1 →
      g1.snake.body = g.snake.body ∧ g1.food = g.food ∧ g1.score = g.score ∧
        g1.highScore = g.highScore ∧ g1.gameOver = g.gameOver := by
  intro keys
  induction keys with
  | nil =>
    intro g g1 hsome
    unfold Term.handleInput at hsome
    cases hsome
    exact ⟨rfl, rfl, rfl, rfl, rfl⟩
  | cons key rest ih =>
    intro g g1 hsome
    unfold Term.handleInput at hsome
    cases key with
    | quit => exact absurd hsome (by simp)
    | pause =>
      obtain ⟨h1, h2, h3, h4, h5⟩ :=
        ih { g with paused := !g.paused } g1 hsome
      exact ⟨h1, h2, h3, h4, h5⟩
    | dir d =>
      obtain ⟨h1, h2, h3, h4, h5⟩ := ih _ _ hsome
      exact ⟨h1.trans (Term.setDirection_body g.snake d), h2, h3, h4, h5⟩
    | other => exact ih _ _ hsome

theorem Gui.handleKey_steer_frame (w h len k : Nat) (g : Gui.State)
    (key : Gui.GKey)
    (hst : g.gstate = Gui.GState.playing ∨ g.gstate = Gui.GState.paused)
    (hkey : Gui.isSteerKey key) :
    ((Gui.handleKey w h len k g key).gstate = Gui.GState.playing ∨
      (Gui.handleKey w h len k g key).gstate = Gui.GState.paused) ∧
    (Gui.handleKey w h len k g key).snake.body = g.snake.body ∧
    (Gui.handleKey w h len k g key).food = g.food ∧
    (Gui.handleKey w h len k g key).score = g.score ∧
    (Gui.handleKey w h len k g key).victory = g.victory ∧
    (Gui.handleKey w h len k g key).highScore = g.highScore := by
  rcases hkey with rfl | rfl | rfl | rfl | rfl | ⟨v, rfl⟩ | rfl <;>
    rcases hst with hst | hst <;>
      simp [Gui.handleKey, hst, Gui.setDirection_bodyG]

theorem Gui.handleEvents_steer_frame (w h len : Nat) :
    ∀ (evs : List (Gui.GEvent × Nat)) (g : Gui.State),
      (g.gstate = Gui.GState.playing ∨ g.gstate = Gui.GState.paused) →
      (∀ e ∈ evs, ∃ key, e.1 = Gui.GEvent.keyDown key ∧ Gui.isSteerKey key) →
      ((Gui.handleEvents w h len g evs).gstate = Gui.GState.playing ∨
        (Gui.handleEvents w h len g evs).gstate = Gui.GState.paused) ∧
      (Gui.handleEvents w h len g evs).snake.body = g.snake.body ∧
      (Gui.handleEvents w h len g evs).food = g.food ∧
      (Gui.handleEvents w h len g evs).score = g.score ∧
      (Gui.handleEvents w h len g evs).victory = g.victory ∧
      (Gui.handleEvents w h len g evs).highScore = g.highScore := by
  intro evs
  induction evs with
  | nil =>
    intro g hst hall
    exact ⟨hst, rfl, rfl, rfl, rfl, rfl⟩
  | cons e rest ih =>
    intro g hst hall
    obtain ⟨key, hkeq, hkst⟩ := hall e (by simp)
    obtain ⟨e1, k1⟩ := e
    dsimp only at hkeq
    subst hkeq
    unfold Gui.handleEvents
    dsimp only
    have hstep := Gui.handleKey_steer_frame w h len k1 g key hst hkst
    have hrec := ih (Gui.handleKey w h len k1 g key) hstep.1
      (fun e he => hall e (by simp [he]))
    exact ⟨hrec.1, hrec.2.1.trans hstep.2.1, hrec.2.2.1.trans hstep.2.2.1,
      hrec.2.2.2.1.trans hstep.2.2.2.1, hrec.2.2.2.2.1.trans hstep.2.2.2.2.1,
      hrec.2.2.2.2.2.trans hstep.2.2.2.2.2⟩

/-- C10 counterexample: the claim fails as stated. In the terminal edition a
pass that begins with the pause flag set but whose input unpauses runs the
tick update within that same pass: from a paused state a single P keypress
leaves the body shifted one cell right, not unchanged. -/
theorem c10_counterexample :
    Term.examplePausedState.paused = true ∧
    Term.examplePausedState.snake.body = [(5, 5), (4, 5)] ∧
    (Term.passStep 40 20 [Term.Key.pause] 0 0 false
        Term.examplePausedState).map (fun g => g.snake.body) =
      some [(6, 5), (5, 5)] := by
  decide

/-- C10 amended: in both editions, a control-loop pass that begins paused,
receives only direction and pause inputs, and still has the pause flag set
after input processing leaves the snake body, food position, score and
game-over state unchanged: only the pause flag (toggled an even number of
times) and the snake's stored direction can change, because direction inputs
are accepted while paused. (A pass whose inputs unpause instead runs the tick
update in that same pass, and in the GUI edition Escape or a menu/game-over
button click resets the round, so those inputs are excluded.) -/
theorem c10_paused_pass_amended (w h k k2 len : Nat) (b : Bool)
    (keys : List Term.Key) (g g1 : Term.GameState)
    (evs : List (Gui.GEvent × Nat)) (ticks : List Nat) (gg : Gui.State)
    (hgo : g.gameOver = false) (_hp : g.paused = true)
    (hin : Term.handleInput g keys = some g1) (hp1 : g1.paused = true)
    (hstG : gg.gstate = Gui.GState.paused)
    (hall : ∀ e ∈ evs, ∃ key, e.1 = Gui.GEvent.keyDown key ∧ Gui.isSteerKey key)
    (hend : (Gui.handleEvents w h len gg evs).gstate = Gui.GState.paused) :
    (Term.passStep w h keys k k2 b g = some g1 ∧
      g1.snake.body = g.snake.body ∧ g1.food = g.food ∧ g1.score = g.score ∧
      g1.gameOver = false) ∧
    (Gui.passFrame w h len evs ticks gg = Gui.handleEvents w h len gg evs ∧
      (Gui.handleEvents w h len gg evs).snake.body = gg.snake.body ∧
      (Gui.handleEvents w h len gg evs).food = gg.food ∧
      (Gui.handleEvents w h len gg evs).score = gg.score ∧
      (Gui.handleEvents w h len gg evs).gstate = Gui.GState.paused) := by
  obtain ⟨hb, hf, hs, hh, hgo1⟩ := Term.handleInput_frame keys g g1 hin
  constructor
  · refine ⟨?_, hb, hf, hs, hgo1.trans hgo⟩
    unfold Term.passStep
    rw [hgo]
    simp only [Bool.false_eq_true, if_false, hin, hp1, if_true]
  · have hframe := Gui.handleEvents_steer_frame w h len evs gg (Or.inr hstG) hall
    refine ⟨?_, hframe.2.1, hframe.2.2.1, hframe.2.2.2.1, hend⟩
    unfold Gui.passFrame Gui.updateFrame
    rw [if_pos (Or.inr (Or.inl hend))]

/-- C10 witness: a pass from a concrete paused state whose only input is a
down-direction key keeps the board frozen in both editions. -/
theorem c10_witness :
    (Term.passStep 40 20 [Term.Key.dir ⟨0, 1⟩] 0 0 false Term.examplePausedState =
      some { Term.examplePausedState with
        snake := ⟨[(5, 5), (4, 5)], ⟨0, 1⟩⟩ } ∧
      (Term.examplePausedState.snake.setDirection ⟨0, 1⟩).body =
        Term.examplePausedState.snake.body) ∧
    (Gui.passFrame 28 20 5 [(Gui.GEvent.keyDown Gui.GKey.down, 0)] [0, 1]
        Gui.examplePausedState =
      Gui.handleEvents 28 20 5 Gui.examplePausedState
        [(Gui.GEvent.keyDown Gui.GKey.down, 0)] ∧
      (Gui.handleEvents 28 20 5 Gui.examplePausedState
        [(Gui.GEvent.keyDown Gui.GKey.down, 0)]).score =
        Gui.examplePausedState.score) := by
  have happ := c10_paused_pass_amended 40 20 0 0 5 false
    [Term.Key.dir ⟨0, 1⟩] Term.examplePausedState
    { Term.examplePausedState with snake := ⟨[(5, 5), (4, 5)], ⟨0, 1⟩⟩ }
    [(Gui.GEvent.keyDown Gui.GKey.down, 0)] [0, 1] Gui.examplePausedState
    (by decide) (by decide) (by decide) (by decide) (by decide)
    (by
      intro e he
      simp only [List.mem_singleton] at he
      subst he
      exact ⟨Gui.GKey.down, rfl, Or.inr (Or.inr (Or.inl rfl))⟩)
    (by decide)
  have happ2 := c10_paused_pass_amended 28 20 0 0 5 false
    [Term.Key.dir ⟨0, 1⟩] Term.examplePausedState
    { Term.examplePausedState with snake := ⟨[(5, 5), (4, 5)], ⟨0, 1⟩⟩ }
    [(Gui.GEvent.keyDown Gui.GKey.down, 0)] [0, 1] Gui.examplePausedState
    (by decide) (by decide) (by decide) (by decide) (by decide)
    (by
      intro e he
      simp only [List.mem_singleton] at he
      subst he
      exact ⟨Gui.GKey.down, rfl, Or.inr (Or.inr (Or.inl rfl))⟩)
    (by decide)
  exact ⟨⟨happ.1.1, by decide⟩, happ2.2.1, happ2.2.2.2.2.1⟩
